import Mathlib

/-!
# Verification of the `reporter` request-handling layer

Shallow embedding of the repository's TypeScript sources:

* `src/app/api/generate/route.ts` — the `POST` handler of the generate
  endpoint (embedded as `generatePOST`);
* the analyze route (`POST` handler, embedded as `analyzePOST`);
* `@/lib/server/python` — `runPython` / `spawnPython` (embedded as
  `runPython` over an environment describing `process.env` and the
  behaviour of `child_process.spawn`);
* the client page (`Home` component) — the `canGenerate` predicate.

Effectful collaborators (the multipart form, the spawned subprocess,
`JSON.parse`, `fs.readFile` of the output temp file) are modelled as an
explicit environment; a handler is a pure function from that environment
to an outcome recording the HTTP response, the temp files created and
removed by the `finally` block, whether the output artifact was read, and
the argument vector passed to the Python subprocess.

The Python pipeline itself (`processor/main.py`) is not part of the
repository's staged sources; where a claim depends on it, it is modelled
from the spec (definitions marked `Modelled from the spec:`).
-/

/-- Severity of an `Issue` (the client's `Issue.type` union
`"error" | "warning"`). -/
inductive Severity
  | error
  | warning
deriving DecidableEq, Repr

/-- One detected problem, as in the client's `Issue` type. -/
structure Issue where
  type : Severity
  message : String
  source : Option String
  suggestedFix : Option String
deriving DecidableEq, Repr

/-- One extracted scalar metric with provenance (client type `MetricRow`). -/
structure MetricRow where
  key : String
  value : Int
  sourceSnippet : String
  sourcePointer : Option String
deriving DecidableEq, Repr

/-- One per-article row of the breakdown table (client type `ArticleRow`). -/
structure ArticleRow where
  article : String
  women_u18 : Int
  women_ge18 : Int
  women_total : Int
  stopped : Int
  new : Int
  total_cases : Int
deriving DecidableEq, Repr

/-- One evaluated consistency formula (client type `CrossCheck`). -/
structure CrossCheck where
  key : String
  formula : String
  expected : Int
  actual : Int
  pass : Bool
deriving DecidableEq, Repr

/-- A spreadsheet cell value: `string | number | null` in the client types. -/
inductive CellValue
  | s (v : String)
  | n (v : Int)
  | null
deriving DecidableEq, Repr

/-- One proposed cell mutation (client type `UpdatePreview`). -/
structure UpdatePreview where
  sheet : String
  cell : String
  rowLabel : String
  oldValue : CellValue
  newValue : CellValue
  kind : String
deriving DecidableEq, Repr

/-- The aggregate report (client type `AnalysisReport`).  The routes consume
it from untyped `JSON.parse` output, so `reportMonth` and
`validationSkipped` are optional here: `none` stands for a JSON field that
is absent or `null`. -/
structure AnalysisReport where
  reportMonth : Option String
  extractedMetrics : List MetricRow
  articleBreakdown : List ArticleRow
  crossChecks : List CrossCheck
  errors : List Issue
  warnings : List Issue
  updatePreview : List UpdatePreview
  validationSkipped : Option Bool
deriving DecidableEq, Repr

/-- The JSON payload the Python worker prints to stdout, as the routes
project it: they read `payload.status` and `payload.report?.reportMonth`
and otherwise echo the payload verbatim.  `error`/`details` carry the
fatal-payload fields of the §6 contract. -/
structure Payload where
  status : Option String
  report : Option AnalysisReport
  error : Option String
  details : Option String
deriving DecidableEq, Repr

/-- Bytes of an uploaded `File`, with its client-side name. -/
structure FileData where
  name : String
  bytes : List Nat
deriving DecidableEq, Repr

/-- A value of a multipart form field: `formData.get` yields a `File`, a
string, or `null` (modelled by `Option FormValue` at the use sites). -/
inductive FormValue
  | file (f : FileData)
  | str (s : String)
deriving DecidableEq, Repr

/-- The three form fields both route handlers read. -/
structure FormData where
  word : Option FormValue
  excel : Option FormValue
  skipValidation : Option FormValue
deriving DecidableEq, Repr

/-- `x instanceof File` on the result of `formData.get`. -/
def isFileValue : Option FormValue → Bool
  | some (FormValue.file _) => true
  | _ => false

/-- `formData.get("skipValidation") === "true"`: strict equality with the
exact string `"true"`; a `File`, `null`, or any other string compares
unequal. -/
def isTrueString : Option FormValue → Bool
  | some (FormValue.str s) => s == "true"
  | _ => false

/-- Result of a completed Python subprocess (`PythonResult` in
`@/lib/server/python`): captured stdout/stderr and the exit code from the
`close` event (`null` when the child was terminated by a signal). -/
structure PythonResult where
  stdout : String
  stderr : String
  exitCode : Option Int
deriving DecidableEq, Repr

/-- Body of a `NextResponse.json` response: either the inline
`{ error, details? }` object both routes build, or a parsed worker payload
echoed verbatim. -/
inductive JsonBody
  | errJson (error : String) (details : Option String)
  | payloadJson (p : Payload)
deriving DecidableEq, Repr

/-- An HTTP response as the handlers build it: a JSON response with a
status code, or (generate's success path) a binary download built with
`new NextResponse(fileBuffer, ...)` carrying explicit `Content-Type` and
`Content-Disposition` headers. -/
inductive Response
  | json (status : Nat) (body : JsonBody)
  | fileDownload (status : Nat) (bytes : List Nat)
      (contentType : String) (contentDisposition : String)
deriving DecidableEq, Repr

/-- What one invocation of a route handler did: the response it returned,
the temp files it created and the ones its `finally` block removed, whether
it read the output artifact (`fs.readFile(outTmp.name)`), and the argument
vector it passed to `runPython` (`none` when the subprocess was never
launched). -/
structure HandlerOutcome where
  response : Response
  tmpCreated : List String
  tmpRemoved : List String
  readOut : Bool
  pyArgs : Option (List String)
deriving DecidableEq, Repr

/-- Path of the staged narrative document temp file (`wordTmp.name`; `tmp`
generates a fresh name with the requested postfix — a fixed symbolic name
stands for it). -/
def wordTmpName : String := "wordTmp.docx"

/-- Path of the staged prior-spreadsheet temp file (`excelTmp.name`). -/
def excelTmpName : String := "excelTmp.xlsx"

/-- Path of the generate route's output temp file (`outTmp.name`). -/
def outTmpName : String := "outTmp.xlsx"

/-- `path.join(process.cwd(), "processor", "main.py")`, relative to cwd. -/
def scriptPath : String := "processor/main.py"

/-- The xlsx MIME type the generate route sets as `Content-Type`. -/
def mimeXlsx : String :=
  "application/vnd.openxmlformats-officedocument.spreadsheetml.sheet"

/-- `payload.report?.reportMonth ?? "report"`: the nullish-coalescing
fallback used to build the download filename. -/
def reportMonthOf (p : Payload) : String :=
  match p.report with
  | some r =>
    match r.reportMonth with
    | some m => m
    | none => "report"
  | none => "report"

/-- The `Content-Disposition` header value of generate's success response:
`attachment; filename="report_updated_<month>.xlsx"`. -/
def contentDispositionFor (p : Payload) : String :=
  "attachment; filename=\"report_updated_" ++ reportMonthOf p ++ ".xlsx\""

/-- Argument vector the generate route passes to `runPython`, including the
conditional `--skip-validation` push. -/
def generateArgs (skip : Bool) : List String :=
  [scriptPath, "generate", "--word", wordTmpName, "--excel", excelTmpName,
    "--out", outTmpName] ++ (if skip then ["--skip-validation"] else [])

/-- Argument vector the analyze route passes to `runPython`. -/
def analyzeArgs (skip : Bool) : List String :=
  [scriptPath, "analyze", "--word", wordTmpName, "--excel", excelTmpName]
    ++ (if skip then ["--skip-validation"] else [])

/-- JavaScript `String.prototype.trim()`: the string with leading and
trailing whitespace removed (structurally recursive over the character
list, so that it evaluates by kernel reduction). -/
def jsTrim (s : String) : String :=
  String.mk (((s.data.dropWhile Char.isWhitespace).reverse.dropWhile
    Char.isWhitespace).reverse)

/-- Environment of one generate request: the parsed form, what `runPython`
does (`Except.error` = the awaited promise rejects, carrying `String(error)`),
what `JSON.parse` does on a given stdout text (`Except.error` = it throws),
and what `fs.readFile(outTmp.name)` yields (`Except.error` = it throws). -/
structure GenEnv where
  form : FormData
  py : Except String PythonResult
  parse : String → Except String Payload
  outBytes : Except String (List Nat)

/-- Environment of one analyze request (no output file). -/
structure AnaEnv where
  form : FormData
  py : Except String PythonResult
  parse : String → Except String Payload

/-- Body of the generate route's `try` block: the thrown error (to be
caught) or the response returned from inside the `try`, paired with whether
`fs.readFile(outTmp.name)` was invoked.  Mirrors the statement order of the
source: empty-stdout check, `JSON.parse`, the `payload.status !== "ok"`
early return, then the artifact read and download response. -/
def generateTryBody (env : GenEnv) : Except String Response × Bool :=
  match env.py with
  | Except.error e => (Except.error e, false)
  | Except.ok result =>
    if jsTrim result.stdout = "" then
      (Except.ok (Response.json 500 (JsonBody.errJson
        "Python worker did not return output." (some result.stderr))), false)
    else
      match env.parse result.stdout with
      | Except.error e => (Except.error e, false)
      | Except.ok payload =>
        if payload.status = some "ok" then
          match env.outBytes with
          | Except.error e => (Except.error e, true)
          | Except.ok fileBuffer =>
            (Except.ok (Response.fileDownload 200 fileBuffer mimeXlsx
              (contentDispositionFor payload)), true)
        else
          (Except.ok (Response.json 422 (JsonBody.payloadJson payload)), false)

/-- The generate route's `POST` handler
(`src/app/api/generate/route.ts`).  The 400 guard runs before any temp file
is created; on the other paths the word/excel inputs are staged, the output
temp file allocated, the `try` body run, a thrown error converted by the
`catch` into the 500 `{ error, details }` response, and the `finally`
block's three `removeCallback()` calls recorded unconditionally. -/
def generatePOST (env : GenEnv) : HandlerOutcome :=
  if isFileValue env.form.word && isFileValue env.form.excel then
    let skipValidation := isTrueString env.form.skipValidation
    let body := generateTryBody env
    let response :=
      match body.1 with
      | Except.ok r => r
      | Except.error e =>
        Response.json 500 (JsonBody.errJson "Failed to generate report." (some e))
    { response := response
      tmpCreated := [wordTmpName, excelTmpName, outTmpName]
      tmpRemoved := [wordTmpName, excelTmpName, outTmpName]
      readOut := body.2
      pyArgs := some (generateArgs skipValidation) }
  else
    { response := Response.json 400 (JsonBody.errJson
        "Both word and excel files are required." none)
      tmpCreated := []
      tmpRemoved := []
      readOut := false
      pyArgs := none }

/-- Body of the analyze route's `try` block: like generate's but the
success response echoes the payload as JSON with status 200. -/
def analyzeTryBody (env : AnaEnv) : Except String Response :=
  match env.py with
  | Except.error e => Except.error e
  | Except.ok result =>
    if jsTrim result.stdout = "" then
      Except.ok (Response.json 500 (JsonBody.errJson
        "Python worker did not return output." (some result.stderr)))
    else
      match env.parse result.stdout with
      | Except.error e => Except.error e
      | Except.ok payload =>
        if payload.status = some "ok" then
          Except.ok (Response.json 200 (JsonBody.payloadJson payload))
        else
          Except.ok (Response.json 422 (JsonBody.payloadJson payload))

/-- The analyze route's `POST` handler (the analyze `route.ts`): identical
staging and guard structure, two temp files, catch message
`"Failed to analyze report."`. -/
def analyzePOST (env : AnaEnv) : HandlerOutcome :=
  if isFileValue env.form.word && isFileValue env.form.excel then
    let skipValidation := isTrueString env.form.skipValidation
    let response :=
      match analyzeTryBody env with
      | Except.ok r => r
      | Except.error e =>
        Response.json 500 (JsonBody.errJson "Failed to analyze report." (some e))
    { response := response
      tmpCreated := [wordTmpName, excelTmpName]
      tmpRemoved := [wordTmpName, excelTmpName]
      readOut := false
      pyArgs := some (analyzeArgs skipValidation) }
  else
    { response := Response.json 400 (JsonBody.errJson
        "Both word and excel files are required." none)
      tmpCreated := []
      tmpRemoved := []
      readOut := false
      pyArgs := none }

/-- A spawn failure (`SpawnError` in `@/lib/server/python`): an `Error` with
a message and an optional `code` property. -/
structure SpawnErr where
  message : String
  code : Option String
deriving DecidableEq, Repr

/-- `isEnoent`: the error object has `code === "ENOENT"`. -/
def isEnoent (e : SpawnErr) : Bool :=
  e.code == some "ENOENT"

/-- Environment of one `runPython` call: the three interpreter environment
variables (`none` = unset in `process.env`) and the behaviour of
`child_process.spawn` as a function from the command to either a completed
`PythonResult` or a rejection with a spawn error. -/
structure PyEnv where
  PYTHON_EXECUTABLE : Option String
  PYTHON : Option String
  PYTHON_BIN : Option String
  spawn : String → Except SpawnErr PythonResult

/-- JavaScript `a || d` on an environment-variable read: `undefined` and
the empty string are falsy and fall through to the right operand. -/
def envOr : Option String → String → String
  | some s, d => if s = "" then d else s
  | none, d => d

/-- `process.env.PYTHON_EXECUTABLE || process.env.PYTHON ||
process.env.PYTHON_BIN || "python"`. -/
def configuredPython (e : PyEnv) : String :=
  envOr e.PYTHON_EXECUTABLE (envOr e.PYTHON (envOr e.PYTHON_BIN "python"))

/-- What one `runPython` call did: its result (`Except.error` = the promise
rejects with that error) and the commands handed to `spawnPython`, in
order. -/
structure RunOutcome where
  result : Except SpawnErr PythonResult
  attempted : List String
deriving Repr

/-- `runPython` of `@/lib/server/python`: spawn the configured command; on
a rejection with `ENOENT` when the configured command is not already
`"py"`, retry exactly once with `"py"` (that retry's own rejection
propagates unwrapped); any other rejection is rethrown as a fresh error
whose message is `"Failed to start Python: "` followed by the original
error's message. -/
def runPython (e : PyEnv) : RunOutcome :=
  let configured := configuredPython e
  match e.spawn configured with
  | Except.ok r => { result := Except.ok r, attempted := [configured] }
  | Except.error err =>
    if isEnoent err = true ∧ configured ≠ "py" then
      { result := e.spawn "py", attempted := [configured, "py"] }
    else
      { result := Except.error
          { message := "Failed to start Python: " ++ err.message, code := none }
        attempted := [configured] }

/-- Status of the client page (`useState<"idle" | "analyzing" |
"generating">`). -/
inductive UiStatus
  | idle
  | analyzing
  | generating
deriving DecidableEq, Repr

/-- Client page state: the two selected files, the request status, the
skip-validation checkbox, and the last analysis report shown (if any). -/
structure UiState where
  wordFile : Option FileData
  excelFile : Option FileData
  status : UiStatus
  skipValidation : Bool
  analysis : Option AnalysisReport

/-- The page's `canGenerate` value (the Generate button renders with
`disabled={!canGenerate}`): both files selected, status `"idle"`, and
either the skip-validation checkbox or a prior analysis with an empty
errors list. -/
def canGenerate (s : UiState) : Bool :=
  s.wordFile.isSome && s.excelFile.isSome && s.status == UiStatus.idle &&
    (s.skipValidation ||
      (match s.analysis with
       | some a => a.errors.length == 0
       | none => false))

/-- Modelled from the spec: the pipeline (`processor/main.py`) is invoked by
both routes but is not among the repository's staged sources.  Per §4.2–§4.4
the extraction, cross-checking and validation stages are a deterministic
function of the two input byte streams alone (no clock, no randomness);
this structure is their combined output, before the gate decides what to do
with it. -/
structure CoreAnalysis where
  reportMonth : String
  extractedMetrics : List MetricRow
  articleBreakdown : List ArticleRow
  crossChecks : List CrossCheck
  errors : List Issue
  warnings : List Issue
  updatePreview : List UpdatePreview
deriving DecidableEq, Repr

/-- Modelled from the spec (§3, §4.4): the report assembled from the core
analysis.  Warnings and errors are carried over unchanged (never
suppressed); `validationSkipped = true` is recorded exactly in the
override case. -/
def assembleReport (c : CoreAnalysis) (skip : Bool) : AnalysisReport :=
  { reportMonth := some c.reportMonth
    extractedMetrics := c.extractedMetrics
    articleBreakdown := c.articleBreakdown
    crossChecks := c.crossChecks
    errors := c.errors
    warnings := c.warnings
    updatePreview := c.updatePreview
    validationSkipped := if skip then some true else none }

/-- Modelled from the spec (§4.4, §6, §4.7): the `analyze` operation.
`core` abstracts the extraction/cross-check/validation stages as a pure
function of the narrative-document and prior-spreadsheet bytes; the gate
decides between the `"ok"` and `"validation_error"` payloads, the report
fully populated in both. -/
def analyzePipeline (core : List Nat → List Nat → CoreAnalysis)
    (word excel : List Nat) (skip : Bool) : Payload :=
  let c := core word excel
  if c.errors.isEmpty || skip then
    { status := some "ok", report := some (assembleReport c skip)
      error := none, details := none }
  else
    { status := some "validation_error", report := some (assembleReport c skip)
      error := none, details := none }

/-- Outcome of the `generate` operation: the payload printed to stdout and
the output artifact written to the `--out` path (`none` when the gate
blocked and nothing was written). -/
structure GenerateResult where
  payload : Payload
  artifact : Option (List Nat)
deriving Repr

/-- Modelled from the spec (§4.4, §4.7, §6): the `generate` operation.
Generation proceeds iff the errors list is empty or the skip-validation
override was given; only then is the output artifact written (`render`
abstracts applying the diff plan to the prior spreadsheet). -/
def generatePipeline (core : List Nat → List Nat → CoreAnalysis)
    (render : CoreAnalysis → List Nat → List Nat)
    (word excel : List Nat) (skip : Bool) : GenerateResult :=
  let c := core word excel
  if c.errors.isEmpty || skip then
    { payload := { status := some "ok", report := some (assembleReport c skip)
                   error := none, details := none }
      artifact := some (render c excel) }
  else
    { payload := { status := some "validation_error"
                   report := some (assembleReport c skip)
                   error := none, details := none }
      artifact := none }

/-- A sample uploaded narrative document, for concrete witnesses. -/
def sampleWord : FileData := { name := "report.docx", bytes := [0, 1] }

/-- A sample uploaded prior spreadsheet, for concrete witnesses. -/
def sampleExcel : FileData := { name := "prior.xlsx", bytes := [2, 3] }

/-- A form with both files present and no skip-validation field. -/
def sampleForm : FormData :=
  { word := some (FormValue.file sampleWord)
    excel := some (FormValue.file sampleExcel)
    skipValidation := none }

/-- A fully populated sample report with no issues. -/
def sampleReport : AnalysisReport :=
  { reportMonth := some "2025-09"
    extractedMetrics := []
    articleBreakdown := []
    crossChecks := []
    errors := []
    warnings := []
    updatePreview := []
    validationSkipped := none }

/-- A success payload, for concrete witnesses. -/
def okPayload : Payload :=
  { status := some "ok", report := some sampleReport
    error := none, details := none }

/-- A gate-blocked payload, for concrete witnesses. -/
def blockedPayload : Payload :=
  { status := some "validation_error", report := some sampleReport
    error := none, details := none }

/-- A fully populated core analysis with no issues, for concrete witnesses. -/
def sampleCore : CoreAnalysis :=
  { reportMonth := "2025-09"
    extractedMetrics := []
    articleBreakdown := []
    crossChecks := []
    errors := []
    warnings := []
    updatePreview := [] }

/-- The strict-equality read of the skip flag holds exactly when the form
field is present and is the exact string value `"true"`. -/
theorem isTrueString_iff (v : Option FormValue) :
    isTrueString v = true ↔ v = some (FormValue.str "true") := by
  cases v with
  | none => simp [isTrueString]
  | some fv =>
    cases fv with
    | file f => simp [isTrueString]
    | str s => simp [isTrueString]

/-- `--skip-validation` appears in the generate argument vector exactly when
the flag was set. -/
theorem mem_generateArgs_iff (b : Bool) :
    "--skip-validation" ∈ generateArgs b ↔ b = true := by
  cases b <;> decide

/-- `--skip-validation` appears in the analyze argument vector exactly when
the flag was set. -/
theorem mem_analyzeArgs_iff (b : Bool) :
    "--skip-validation" ∈ analyzeArgs b ↔ b = true := by
  cases b <;> decide

/-- C1: a POST to the generate endpoint whose pipeline payload has a status
other than `"ok"` returns that payload with HTTP status 422, and the output
spreadsheet artifact is neither read (`fs.readFile` of the out file is not
reached) nor returned (the body is the echoed JSON payload, not bytes). -/
theorem generate_blocked_returns_payload_422
    (env : GenEnv) (result : PythonResult) (payload : Payload)
    (hw : isFileValue env.form.word = true)
    (he : isFileValue env.form.excel = true)
    (hpy : env.py = Except.ok result)
    (hout : jsTrim result.stdout ≠ "")
    (hparse : env.parse result.stdout = Except.ok payload)
    (hstatus : payload.status ≠ some "ok") :
    (generatePOST env).response = Response.json 422 (JsonBody.payloadJson payload)
      ∧ (generatePOST env).readOut = false := by
  simp [generatePOST, generateTryBody, hw, he, hpy, hout, hparse, hstatus]

/-- Concrete generate environment whose worker reports a blocked gate. -/
def c1Env : GenEnv :=
  { form := sampleForm
    py := Except.ok { stdout := "payload-json", stderr := "", exitCode := some 2 }
    parse := fun _ => Except.ok blockedPayload
    outBytes := Except.ok [9] }

/-- Witness for C1 at a concrete blocked request. -/
theorem generate_blocked_returns_payload_422_witness :
    (generatePOST c1Env).response
        = Response.json 422 (JsonBody.payloadJson blockedPayload)
      ∧ (generatePOST c1Env).readOut = false :=
  generate_blocked_returns_payload_422 c1Env
    { stdout := "payload-json", stderr := "", exitCode := some 2 } blockedPayload
    (by decide) (by decide) rfl (by decide) rfl (by decide)

/-- C3: for every POST to either endpoint that launches the pipeline, the
`--skip-validation` flag appears in the subprocess argument vector exactly
when the `skipValidation` form field is the exact string `"true"`; any
other value (absent, a file, `"TRUE"`, `"1"`, `"false"`) leaves the gate
enforced. -/
theorem skip_validation_flag_forwarding (genv : GenEnv) (aenv : AnaEnv) :
    (∀ args, (generatePOST genv).pyArgs = some args →
      ("--skip-validation" ∈ args ↔
        genv.form.skipValidation = some (FormValue.str "true"))) ∧
    (∀ args, (analyzePOST aenv).pyArgs = some args →
      ("--skip-validation" ∈ args ↔
        aenv.form.skipValidation = some (FormValue.str "true"))) := by
  constructor
  · intro args harg
    by_cases h : isFileValue genv.form.word && isFileValue genv.form.excel
    · simp only [generatePOST, h, if_true, Option.some.injEq] at harg
      rw [← harg, mem_generateArgs_iff, isTrueString_iff]
    · simp [generatePOST, h] at harg
  · intro args harg
    by_cases h : isFileValue aenv.form.word && isFileValue aenv.form.excel
    · simp only [analyzePOST, h, if_true, Option.some.injEq] at harg
      rw [← harg, mem_analyzeArgs_iff, isTrueString_iff]
    · simp [analyzePOST, h] at harg

/-- Inside the `try` block the `finally` removes exactly what was staged:
both handlers record identical created and removed lists whenever the try
block was reached. -/
theorem generatePOST_removed_eq_created (env : GenEnv) :
    (generatePOST env).tmpRemoved = (generatePOST env).tmpCreated := by
  unfold generatePOST
  split <;> rfl

/-- Analyze-side counterpart of `generatePOST_removed_eq_created`. -/
theorem analyzePOST_removed_eq_created (env : AnaEnv) :
    (analyzePOST env).tmpRemoved = (analyzePOST env).tmpCreated := by
  unfold analyzePOST
  split <;> rfl

/-- C5: on generate's success path — worker payload `"ok"` with a report
naming a month, artifact read back — the response is the spreadsheet bytes
with the xlsx Content-Type and a Content-Disposition filename of exactly
`report_updated_<month>.xlsx`. -/
theorem generate_success_download
    (env : GenEnv) (result : PythonResult) (payload : Payload)
    (rep : AnalysisReport) (month : String) (fileBuffer : List Nat)
    (hw : isFileValue env.form.word = true)
    (he : isFileValue env.form.excel = true)
    (hpy : env.py = Except.ok result)
    (hout : jsTrim result.stdout ≠ "")
    (hparse : env.parse result.stdout = Except.ok payload)
    (hstatus : payload.status = some "ok")
    (hrep : payload.report = some rep)
    (hmonth : rep.reportMonth = some month)
    (hread : env.outBytes = Except.ok fileBuffer) :
    (generatePOST env).response =
      Response.fileDownload 200 fileBuffer mimeXlsx
        ("attachment; filename=\"report_updated_" ++ month ++ ".xlsx\"") := by
  have hm : reportMonthOf payload = month := by
    simp [reportMonthOf, hrep, hmonth]
  simp [generatePOST, generateTryBody, hw, he, hpy, hout, hparse, hstatus,
    hread, contentDispositionFor, hm]

/-- Concrete generate environment on the success path. -/
def c5Env : GenEnv :=
  { form := sampleForm
    py := Except.ok { stdout := "payload-json", stderr := "", exitCode := some 0 }
    parse := fun _ => Except.ok okPayload
    outBytes := Except.ok [7, 7] }

/-- Witness for C5 at a concrete successful request. -/
theorem generate_success_download_witness :
    (generatePOST c5Env).response =
      Response.fileDownload 200 [7, 7] mimeXlsx
        ("attachment; filename=\"report_updated_" ++ "2025-09" ++ ".xlsx\"") :=
  generate_success_download c5Env
    { stdout := "payload-json", stderr := "", exitCode := some 0 }
    okPayload sampleReport "2025-09" [7, 7]
    (by decide) (by decide) rfl (by decide) rfl (by decide) (by decide)
    (by decide) rfl

/-- C9: when the success payload has no report, or its report has no
`reportMonth`, the download filename falls back to the literal
`report_updated_report.xlsx`. -/
theorem generate_filename_fallback
    (env : GenEnv) (result : PythonResult) (payload : Payload)
    (fileBuffer : List Nat)
    (hw : isFileValue env.form.word = true)
    (he : isFileValue env.form.excel = true)
    (hpy : env.py = Except.ok result)
    (hout : jsTrim result.stdout ≠ "")
    (hparse : env.parse result.stdout = Except.ok payload)
    (hstatus : payload.status = some "ok")
    (hmonth : payload.report = none ∨
      ∃ rep, payload.report = some rep ∧ rep.reportMonth = none)
    (hread : env.outBytes = Except.ok fileBuffer) :
    (generatePOST env).response =
      Response.fileDownload 200 fileBuffer mimeXlsx
        "attachment; filename=\"report_updated_report.xlsx\"" := by
  have hm : reportMonthOf payload = "report" := by
    rcases hmonth with h | ⟨rep, hr, hrm⟩ <;> simp [reportMonthOf, *]
  simp [generatePOST, generateTryBody, hw, he, hpy, hout, hparse, hstatus,
    hread, contentDispositionFor, hm]

/-- A success payload carrying no report at all. -/
def noReportPayload : Payload :=
  { status := some "ok", report := none, error := none, details := none }

/-- Concrete generate environment whose success payload has no report. -/
def c9Env : GenEnv :=
  { form := sampleForm
    py := Except.ok { stdout := "payload-json", stderr := "", exitCode := some 0 }
    parse := fun _ => Except.ok noReportPayload
    outBytes := Except.ok [4] }

/-- Witness for C9 at a concrete report-less success. -/
theorem generate_filename_fallback_witness :
    (generatePOST c9Env).response =
      Response.fileDownload 200 [4] mimeXlsx
        "attachment; filename=\"report_updated_report.xlsx\"" :=
  generate_filename_fallback c9Env
    { stdout := "payload-json", stderr := "", exitCode := some 0 }
    noReportPayload [4]
    (by decide) (by decide) rfl (by decide) rfl (by decide)
    (Or.inl (by decide)) rfl

/-- C2: the HTTP status of both endpoints separates content problems from
system problems — 400 when either input file is missing from the form, 500
with an `{ error, details? }` body on the fatal conditions (rejected
subprocess launch, empty worker stdout, unparseable stdout, failed artifact
read), 422 echoing the payload when its status is not `"ok"`, and 200 on
success (the artifact download for generate, the payload for analyze). -/
theorem http_status_taxonomy (genv : GenEnv) (aenv : AnaEnv) :
    (¬(isFileValue genv.form.word = true ∧ isFileValue genv.form.excel = true) →
      (generatePOST genv).response = Response.json 400 (JsonBody.errJson
        "Both word and excel files are required." none)) ∧
    (∀ e, isFileValue genv.form.word = true → isFileValue genv.form.excel = true →
      genv.py = Except.error e →
      (generatePOST genv).response = Response.json 500 (JsonBody.errJson
        "Failed to generate report." (some e))) ∧
    (∀ result, isFileValue genv.form.word = true → isFileValue genv.form.excel = true →
      genv.py = Except.ok result → jsTrim result.stdout = "" →
      (generatePOST genv).response = Response.json 500 (JsonBody.errJson
        "Python worker did not return output." (some result.stderr))) ∧
    (∀ result e, isFileValue genv.form.word = true → isFileValue genv.form.excel = true →
      genv.py = Except.ok result → jsTrim result.stdout ≠ "" →
      genv.parse result.stdout = Except.error e →
      (generatePOST genv).response = Response.json 500 (JsonBody.errJson
        "Failed to generate report." (some e))) ∧
    (∀ result payload, isFileValue genv.form.word = true →
      isFileValue genv.form.excel = true →
      genv.py = Except.ok result → jsTrim result.stdout ≠ "" →
      genv.parse result.stdout = Except.ok payload → payload.status ≠ some "ok" →
      (generatePOST genv).response = Response.json 422 (JsonBody.payloadJson payload)) ∧
    (∀ result payload fileBuffer, isFileValue genv.form.word = true →
      isFileValue genv.form.excel = true →
      genv.py = Except.ok result → jsTrim result.stdout ≠ "" →
      genv.parse result.stdout = Except.ok payload → payload.status = some "ok" →
      genv.outBytes = Except.ok fileBuffer →
      (generatePOST genv).response = Response.fileDownload 200 fileBuffer
        mimeXlsx (contentDispositionFor payload)) ∧
    (∀ result payload e, isFileValue genv.form.word = true →
      isFileValue genv.form.excel = true →
      genv.py = Except.ok result → jsTrim result.stdout ≠ "" →
      genv.parse result.stdout = Except.ok payload → payload.status = some "ok" →
      genv.outBytes = Except.error e →
      (generatePOST genv).response = Response.json 500 (JsonBody.errJson
        "Failed to generate report." (some e))) ∧
    (¬(isFileValue aenv.form.word = true ∧ isFileValue aenv.form.excel = true) →
      (analyzePOST aenv).response = Response.json 400 (JsonBody.errJson
        "Both word and excel files are required." none)) ∧
    (∀ e, isFileValue aenv.form.word = true → isFileValue aenv.form.excel = true →
      aenv.py = Except.error e →
      (analyzePOST aenv).response = Response.json 500 (JsonBody.errJson
        "Failed to analyze report." (some e))) ∧
    (∀ result, isFileValue aenv.form.word = true → isFileValue aenv.form.excel = true →
      aenv.py = Except.ok result → jsTrim result.stdout = "" →
      (analyzePOST aenv).response = Response.json 500 (JsonBody.errJson
        "Python worker did not return output." (some result.stderr))) ∧
    (∀ result e, isFileValue aenv.form.word = true → isFileValue aenv.form.excel = true →
      aenv.py = Except.ok result → jsTrim result.stdout ≠ "" →
      aenv.parse result.stdout = Except.error e →
      (analyzePOST aenv).response = Response.json 500 (JsonBody.errJson
        "Failed to analyze report." (some e))) ∧
    (∀ result payload, isFileValue aenv.form.word = true →
      isFileValue aenv.form.excel = true →
      aenv.py = Except.ok result → jsTrim result.stdout ≠ "" →
      aenv.parse result.stdout = Except.ok payload → payload.status ≠ some "ok" →
      (analyzePOST aenv).response = Response.json 422 (JsonBody.payloadJson payload)) ∧
    (∀ result payload, isFileValue aenv.form.word = true →
      isFileValue aenv.form.excel = true →
      aenv.py = Except.ok result → jsTrim result.stdout ≠ "" →
      aenv.parse result.stdout = Except.ok payload → payload.status = some "ok" →
      (analyzePOST aenv).response = Response.json 200 (JsonBody.payloadJson payload)) := by
  refine ⟨?_, ?_, ?_, ?_, ?_, ?_, ?_, ?_, ?_, ?_, ?_, ?_, ?_⟩
  · intro h
    cases hw : isFileValue genv.form.word <;> cases he : isFileValue genv.form.excel
    · simp [generatePOST, hw, he]
    · simp [generatePOST, hw, he]
    · simp [generatePOST, hw, he]
    · exact absurd ⟨hw, he⟩ h
  · intro e hw he hpy
    simp [generatePOST, generateTryBody, hw, he, hpy]
  · intro result hw he hpy hout
    simp [generatePOST, generateTryBody, hw, he, hpy, hout]
  · intro result e hw he hpy hout hparse
    simp [generatePOST, generateTryBody, hw, he, hpy, hout, hparse]
  · intro result payload hw he hpy hout hparse hstatus
    simp [generatePOST, generateTryBody, hw, he, hpy, hout, hparse, hstatus]
  · intro result payload fileBuffer hw he hpy hout hparse hstatus hread
    simp [generatePOST, generateTryBody, hw, he, hpy, hout, hparse, hstatus, hread]
  · intro result payload e hw he hpy hout hparse hstatus hread
    simp [generatePOST, generateTryBody, hw, he, hpy, hout, hparse, hstatus, hread]
  · intro h
    cases hw : isFileValue aenv.form.word <;> cases he : isFileValue aenv.form.excel
    · simp [analyzePOST, hw, he]
    · simp [analyzePOST, hw, he]
    · simp [analyzePOST, hw, he]
    · exact absurd ⟨hw, he⟩ h
  · intro e hw he hpy
    simp [analyzePOST, analyzeTryBody, hw, he, hpy]
  · intro result hw he hpy hout
    simp [analyzePOST, analyzeTryBody, hw, he, hpy, hout]
  · intro result e hw he hpy hout hparse
    simp [analyzePOST, analyzeTryBody, hw, he, hpy, hout, hparse]
  · intro result payload hw he hpy hout hparse hstatus
    simp [analyzePOST, analyzeTryBody, hw, he, hpy, hout, hparse, hstatus]
  · intro result payload hw he hpy hout hparse hstatus
    simp [analyzePOST, analyzeTryBody, hw, he, hpy, hout, hparse, hstatus]

/-- C4: generation proceeds iff the errors list is empty or the caller set
the skip-validation override.  In the client, the Generate action is
enabled exactly when both files are selected, the status is idle, and
either the skip-validation checkbox is set or a prior analysis has zero
errors; in the (spec-modelled) pipeline, the artifact is produced iff the
gate passes, and with the override set it is produced with
`validationSkipped = true` recorded while the embedded report keeps every
error and warning. -/
theorem generation_gate_iff (s : UiState)
    (core : List Nat → List Nat → CoreAnalysis)
    (render : CoreAnalysis → List Nat → List Nat)
    (word excel : List Nat) (skip : Bool) :
    (canGenerate s = true ↔
      (s.wordFile.isSome = true ∧ s.excelFile.isSome = true ∧
        s.status = UiStatus.idle ∧
        (s.skipValidation = true ∨ ∃ a, s.analysis = some a ∧ a.errors = []))) ∧
    ((generatePipeline core render word excel skip).artifact.isSome = true ↔
      ((core word excel).errors = [] ∨ skip = true)) ∧
    (skip = true →
      (generatePipeline core render word excel skip).artifact
          = some (render (core word excel) excel) ∧
      (generatePipeline core render word excel skip).payload.report
          = some (assembleReport (core word excel) skip) ∧
      (assembleReport (core word excel) skip).validationSkipped = some true ∧
      (assembleReport (core word excel) skip).errors = (core word excel).errors ∧
      (assembleReport (core word excel) skip).warnings
          = (core word excel).warnings) := by
  refine ⟨?_, ?_, ?_⟩
  · cases ha : s.analysis with
    | none =>
      simp [canGenerate, ha, beq_iff_eq]
      tauto
    | some a =>
      simp [canGenerate, ha, List.length_eq_zero, beq_iff_eq]
      tauto
  · cases herr : (core word excel).errors with
    | nil => cases skip <;> simp [generatePipeline, herr]
    | cons i rest => cases skip <;> simp [generatePipeline, herr]
  · intro hskip
    subst hskip
    refine ⟨?_, ?_, rfl, rfl, rfl⟩ <;>
      cases herr : (core word excel).errors <;>
        simp [generatePipeline, herr]

/-- C7: the analyze operation is a deterministic function of the two input
byte streams — byte-identical narrative and prior-spreadsheet inputs yield
identical payloads (the spec-modelled pipeline takes no clock, timestamp or
randomness input at all). -/
theorem analyze_deterministic
    (core : List Nat → List Nat → CoreAnalysis)
    (word1 excel1 word2 excel2 : List Nat) (skip : Bool)
    (hw : word1 = word2) (he : excel1 = excel2) :
    analyzePipeline core word1 excel1 skip
      = analyzePipeline core word2 excel2 skip := by
  rw [hw, he]

/-- Witness for C7 at concrete byte-identical inputs. -/
theorem analyze_deterministic_witness :
    analyzePipeline (fun _ _ => sampleCore) [0, 1] [2, 3] false
      = analyzePipeline (fun _ _ => sampleCore) [0, 1] [2, 3] false :=
  analyze_deterministic (fun _ _ => sampleCore) [0, 1] [2, 3] [0, 1] [2, 3]
    false rfl rfl

/-- Analyze environment whose worker prints nothing and writes `boom-a` to
stderr. -/
def c8EnvA : AnaEnv :=
  { form := sampleForm
    py := Except.ok { stdout := "", stderr := "boom-a", exitCode := some 0 }
    parse := fun _ => Except.error "unused" }

/-- The same request except that the worker's stderr reads `boom-b`. -/
def c8EnvB : AnaEnv :=
  { form := sampleForm
    py := Except.ok { stdout := "", stderr := "boom-b", exitCode := some 0 }
    parse := fun _ => Except.error "unused" }

/-- C8, counterexample: the responses do not depend on stdout alone — two
runs with identical stdout (empty) and identical exit code but different
stderr yield different responses, because the empty-stdout 500 body embeds
stderr as `details`. -/
theorem response_depends_on_stderr_counterexample :
    (∃ ra rb, c8EnvA.py = Except.ok ra ∧ c8EnvB.py = Except.ok rb ∧
      ra.stdout = rb.stdout ∧ ra.exitCode = rb.exitCode) ∧
    (analyzePOST c8EnvA).response ≠ (analyzePOST c8EnvB).response := by
  exact ⟨⟨_, _, rfl, rfl, rfl, rfl⟩, by decide⟩

/-- C8, amended: the responses depend only on the subprocess's stdout and
stderr content (and on rejected launches), never on its exit code — an
arbitrary change of the exit code leaves either handler's outcome
unchanged, and a run that exits nonzero but prints a payload with status
`"ok"` is treated as full success: HTTP 200, and for generate the artifact
is returned. -/
theorem exit_code_never_consulted (genv : GenEnv) (aenv : AnaEnv) :
    (∀ result k, genv.py = Except.ok result →
      generatePOST { genv with py := Except.ok { result with exitCode := k } }
        = generatePOST genv) ∧
    (∀ result k, aenv.py = Except.ok result →
      analyzePOST { aenv with py := Except.ok { result with exitCode := k } }
        = analyzePOST aenv) ∧
    (∀ result payload code, isFileValue aenv.form.word = true →
      isFileValue aenv.form.excel = true →
      aenv.py = Except.ok result → result.exitCode = some code → code ≠ 0 →
      jsTrim result.stdout ≠ "" →
      aenv.parse result.stdout = Except.ok payload → payload.status = some "ok" →
      (analyzePOST aenv).response
        = Response.json 200 (JsonBody.payloadJson payload)) ∧
    (∀ result payload code fileBuffer, isFileValue genv.form.word = true →
      isFileValue genv.form.excel = true →
      genv.py = Except.ok result → result.exitCode = some code → code ≠ 0 →
      jsTrim result.stdout ≠ "" →
      genv.parse result.stdout = Except.ok payload → payload.status = some "ok" →
      genv.outBytes = Except.ok fileBuffer →
      (generatePOST genv).response = Response.fileDownload 200 fileBuffer
        mimeXlsx (contentDispositionFor payload)) := by
  refine ⟨?_, ?_, ?_, ?_⟩
  · intro result k hpy
    simp only [generatePOST, generateTryBody, hpy]
  · intro result k hpy
    simp only [analyzePOST, analyzeTryBody, hpy]
  · intro result payload code hw he hpy hcode hnz hout hparse hstatus
    simp [analyzePOST, analyzeTryBody, hw, he, hpy, hout, hparse, hstatus]
  · intro result payload code fileBuffer hw he hpy hcode hnz hout hparse hstatus hread
    simp [generatePOST, generateTryBody, hw, he, hpy, hout, hparse, hstatus, hread]

/-- A completed interpreter run, for the C10 counterexample. -/
def pyOkResult : PythonResult :=
  { stdout := "out", stderr := "", exitCode := some 0 }

/-- Environment where `PYTHON_EXECUTABLE` is set to the empty string and
`PYTHON` names an interpreter. -/
def c10Env : PyEnv :=
  { PYTHON_EXECUTABLE := some ""
    PYTHON := some "python3"
    PYTHON_BIN := none
    spawn := fun _ => Except.ok pyOkResult }

/-- C10, counterexample: the command launched is not the value of the first
*set* environment variable — with `PYTHON_EXECUTABLE` set (to the empty
string) and `PYTHON` set to `python3`, the `||` chain skips the falsy empty
string and spawns `python3`. -/
theorem interpreter_choice_counterexample :
    c10Env.PYTHON_EXECUTABLE = some "" ∧
    (runPython c10Env).attempted = ["python3"] ∧ "python3" ≠ "" := by
  refine ⟨rfl, by decide, by decide⟩

/-- C10, amended: `runPython` launches the interpreter named by the first
of `PYTHON_EXECUTABLE`, `PYTHON`, `PYTHON_BIN` that is set to a non-empty
string, defaulting to `python`; if spawning fails with an ENOENT error and
the chosen command is not already `py`, it retries exactly once with `py`
(whose own failure propagates as is); any other spawn failure throws an
error whose message begins with `Failed to start Python: `. -/
theorem run_python_selection_and_retry (e : PyEnv) :
    (∀ s, e.PYTHON_EXECUTABLE = some s → s ≠ "" → configuredPython e = s) ∧
    ((e.PYTHON_EXECUTABLE = none ∨ e.PYTHON_EXECUTABLE = some "") →
      ∀ s, e.PYTHON = some s → s ≠ "" → configuredPython e = s) ∧
    ((e.PYTHON_EXECUTABLE = none ∨ e.PYTHON_EXECUTABLE = some "") →
      (e.PYTHON = none ∨ e.PYTHON = some "") →
      ∀ s, e.PYTHON_BIN = some s → s ≠ "" → configuredPython e = s) ∧
    ((e.PYTHON_EXECUTABLE = none ∨ e.PYTHON_EXECUTABLE = some "") →
      (e.PYTHON = none ∨ e.PYTHON = some "") →
      (e.PYTHON_BIN = none ∨ e.PYTHON_BIN = some "") →
      configuredPython e = "python") ∧
    (∀ result, e.spawn (configuredPython e) = Except.ok result →
      runPython e
        = { result := Except.ok result, attempted := [configuredPython e] }) ∧
    (∀ err, e.spawn (configuredPython e) = Except.error err →
      isEnoent err = true → configuredPython e ≠ "py" →
      runPython e
        = { result := e.spawn "py", attempted := [configuredPython e, "py"] }) ∧
    (∀ err, e.spawn (configuredPython e) = Except.error err →
      (isEnoent err = false ∨ configuredPython e = "py") →
      runPython e
        = { result := Except.error
              { message := "Failed to start Python: " ++ err.message
                code := none }
            attempted := [configuredPython e] }) := by
  refine ⟨?_, ?_, ?_, ?_, ?_, ?_, ?_⟩
  · intro s hs hne
    simp [configuredPython, envOr, hs, hne]
  · intro h1 s hs hne
    rcases h1 with h1 | h1 <;> simp [configuredPython, envOr, h1, hs, hne]
  · intro h1 h2 s hs hne
    rcases h1 with h1 | h1 <;> rcases h2 with h2 | h2 <;>
      simp [configuredPython, envOr, h1, h2, hs, hne]
  · intro h1 h2 h3
    rcases h1 with h1 | h1 <;> rcases h2 with h2 | h2 <;>
      rcases h3 with h3 | h3 <;> simp [configuredPython, envOr, h1, h2, h3]
  · intro result hs
    simp [runPython, hs]
  · intro err hs henoent hne
    simp [runPython, hs, henoent, hne]
  · intro err hs hother
    rcases hother with hother | hother
    · simp [runPython, hs, hother]
    · rw [hother] at hs
      simp [runPython, hother, hs]

/-- A point of the generate route's staging phase that can throw.  Staging
runs *before* the `try` block: `writeTempFile(word, ".docx")` (a
`tmp.fileSync` allocation followed by `file.arrayBuffer()` /
`fs.writeFile`), then `writeTempFile(excel, ".xlsx")`, then the
`tmp.fileSync` allocation of the output file.  A rejection at any of these
points propagates out of the handler without ever entering the
`try`/`finally`. -/
inductive GenStagingStep
  | wordAlloc
  | wordWrite
  | excelAlloc
  | excelWrite
  | outAlloc
deriving DecidableEq, Repr

/-- A point of the analyze route's staging phase that can throw (the same
two `writeTempFile` calls; the analyze route allocates no output file). -/
inductive AnaStagingStep
  | wordAlloc
  | wordWrite
  | excelAlloc
  | excelWrite
deriving DecidableEq, Repr

/-- The temp files already created when the generate staging phase throws
at the given point: the `fileSync` allocation precedes the write of the
same file, and files stage in word, excel, out order. -/
def genStagedBefore : GenStagingStep → List String
  | GenStagingStep.wordAlloc => []
  | GenStagingStep.wordWrite => [wordTmpName]
  | GenStagingStep.excelAlloc => [wordTmpName]
  | GenStagingStep.excelWrite => [wordTmpName, excelTmpName]
  | GenStagingStep.outAlloc => [wordTmpName, excelTmpName]

/-- The temp files already created when the analyze staging phase throws
at the given point. -/
def anaStagedBefore : AnaStagingStep → List String
  | AnaStagingStep.wordAlloc => []
  | AnaStagingStep.wordWrite => [wordTmpName]
  | AnaStagingStep.excelAlloc => [wordTmpName]
  | AnaStagingStep.excelWrite => [wordTmpName, excelTmpName]

/-- Environment of one generate request, staging failures included:
`staging = none` means every staging step succeeds (from there the handler
behaves as `generatePOST`); `staging = some step` means staging throws at
that point. -/
structure GenFullEnv where
  base : GenEnv
  staging : Option GenStagingStep

/-- Environment of one analyze request, staging failures included. -/
structure AnaFullEnv where
  base : AnaEnv
  staging : Option AnaStagingStep

/-- Outcome of one handler invocation including the exits by rejection:
`response = none` means the handler's promise rejected (an uncaught throw),
`tmpRemoved` the files removed before control left the handler. -/
structure FullOutcome where
  response : Option Response
  tmpCreated : List String
  tmpRemoved : List String
deriving DecidableEq, Repr

/-- The generate route's `POST` handler with its staging phase explicit.
The 400 guard runs before any staging; a staging throw exits the handler by
rejection with the files created so far left unremoved (the `try`/`finally`
is never entered); once staging succeeds the handler is `generatePOST`,
whose `finally` removes all three temp files on every exit from the
`try`. -/
def generatePOSTFull (env : GenFullEnv) : FullOutcome :=
  if isFileValue env.base.form.word && isFileValue env.base.form.excel then
    match env.staging with
    | some step =>
      { response := none, tmpCreated := genStagedBefore step, tmpRemoved := [] }
    | none =>
      let h := generatePOST env.base
      { response := some h.response
        tmpCreated := h.tmpCreated
        tmpRemoved := h.tmpRemoved }
  else
    { response := some (Response.json 400 (JsonBody.errJson
        "Both word and excel files are required." none))
      tmpCreated := []
      tmpRemoved := [] }

/-- The analyze route's `POST` handler with its staging phase explicit. -/
def analyzePOSTFull (env : AnaFullEnv) : FullOutcome :=
  if isFileValue env.base.form.word && isFileValue env.base.form.excel then
    match env.staging with
    | some step =>
      { response := none, tmpCreated := anaStagedBefore step, tmpRemoved := [] }
    | none =>
      let h := analyzePOST env.base
      { response := some h.response
        tmpCreated := h.tmpCreated
        tmpRemoved := h.tmpRemoved }
  else
    { response := some (Response.json 400 (JsonBody.errJson
        "Both word and excel files are required." none))
      tmpCreated := []
      tmpRemoved := [] }

/-- Base environment for the staging-failure counterexample (its worker and
parser are never reached). -/
def c6Base : GenEnv :=
  { form := sampleForm
    py := Except.ok { stdout := "", stderr := "", exitCode := some 0 }
    parse := fun _ => Except.error "unreached"
    outBytes := Except.error "unreached" }

/-- A generate request whose staging of the excel input throws. -/
def c6FailEnv : GenFullEnv :=
  { base := c6Base, staging := some GenStagingStep.excelWrite }

/-- C6, counterexample: an invocation of the generate handler whose staging
of the excel input throws (after the word and excel temp files were
allocated) exits by rejection having created two temp files and removed
none of them — the staged word input is created but never released, so the
handler does not release all the temporary files it created on every exit
path. -/
theorem staging_failure_leaks_counterexample :
    (generatePOSTFull c6FailEnv).tmpCreated = [wordTmpName, excelTmpName] ∧
    (generatePOSTFull c6FailEnv).tmpRemoved = [] ∧
    (generatePOSTFull c6FailEnv).response = none := by
  refine ⟨by decide, by decide, by decide⟩

/-- C6, amended: every invocation of either handler that reaches its `try`
block (both inputs staged and, for generate, the output temp file
allocated) releases exactly the temporary files it created on every exit
path — success, gate-blocked, and fatal/exception — before the handler
returns, the created set being the staged word and excel files plus the
output file for generate; but when staging itself throws before the `try`
block, the handler exits by rejection and removes none of the temp files
already created. -/
theorem temp_files_released_within_try (genv : GenFullEnv) (aenv : AnaFullEnv) :
    (genv.staging = none →
      (generatePOSTFull genv).tmpRemoved = (generatePOSTFull genv).tmpCreated) ∧
    (aenv.staging = none →
      (analyzePOSTFull aenv).tmpRemoved = (analyzePOSTFull aenv).tmpCreated) ∧
    (isFileValue genv.base.form.word = true →
      isFileValue genv.base.form.excel = true → genv.staging = none →
      (generatePOSTFull genv).tmpCreated
        = [wordTmpName, excelTmpName, outTmpName]) ∧
    (isFileValue aenv.base.form.word = true →
      isFileValue aenv.base.form.excel = true → aenv.staging = none →
      (analyzePOSTFull aenv).tmpCreated = [wordTmpName, excelTmpName]) ∧
    (∀ step, isFileValue genv.base.form.word = true →
      isFileValue genv.base.form.excel = true → genv.staging = some step →
      (generatePOSTFull genv).response = none ∧
        (generatePOSTFull genv).tmpCreated = genStagedBefore step ∧
        (generatePOSTFull genv).tmpRemoved = []) ∧
    (∀ step, isFileValue aenv.base.form.word = true →
      isFileValue aenv.base.form.excel = true → aenv.staging = some step →
      (analyzePOSTFull aenv).response = none ∧
        (analyzePOSTFull aenv).tmpCreated = anaStagedBefore step ∧
        (analyzePOSTFull aenv).tmpRemoved = []) := by
  refine ⟨?_, ?_, ?_, ?_, ?_, ?_⟩
  · intro hstage
    by_cases hv : isFileValue genv.base.form.word && isFileValue genv.base.form.excel
    · simp [generatePOSTFull, hstage, hv, generatePOST_removed_eq_created]
    · simp [generatePOSTFull, hstage, hv]
  · intro hstage
    by_cases hv : isFileValue aenv.base.form.word && isFileValue aenv.base.form.excel
    · simp [analyzePOSTFull, hstage, hv, analyzePOST_removed_eq_created]
    · simp [analyzePOSTFull, hstage, hv]
  · intro hw he hstage
    simp [generatePOSTFull, hstage, hw, he, generatePOST]
  · intro hw he hstage
    simp [analyzePOSTFull, hstage, hw, he, analyzePOST]
  · intro step hw he hstage
    simp [generatePOSTFull, hstage, hw, he]
  · intro step hw he hstage
    simp [analyzePOSTFull, hstage, hw, he]
